import Mathlib

/-!
Shallow embedding of the Memory & Soul Passport (MSP) subsystem of EVA_7.0:
the confidence/epistemic engine (`validation/confidence_updater.py`), the
semantic and episodic validators (`validation/semantic_validator.py`,
`validation/episodic_validator.py`), and the orchestrator operations
`write_episode`, `write_semantic`, `_apply_ri_filter`, `_merge_semantic`
and `consolidate_to_origin` (`MSP.py`).

Python JSON dictionaries are modelled as insertion-ordered association
lists of `String × JValue`; floats are modelled as rationals.
-/

namespace MSP

/-- JSON value as handled by the Python code (`json.load` output).
Numbers are modelled as rationals; Python `None` is `null`. -/
inductive JValue : Type where
  | null : JValue
  | bool (b : Bool) : JValue
  | num (q : ℚ) : JValue
  | str (s : String) : JValue
  | arr (items : List JValue) : JValue
  | obj (fields : List (String × JValue)) : JValue

/-- A Python dict with string keys, in insertion order (keys unique in the
dicts the code builds). -/
abbrev JObj : Type := List (String × JValue)

/-- `d.get(k)` / `k in d` on a string-keyed Python dict (first matching
key; the dicts the code builds have unique keys). -/
def dictGet {α : Type} (o : List (String × α)) (k : String) : Option α :=
  match o with
  | [] => none
  | (k', v) :: rest => if k' = k then some v else dictGet rest k

/-- `d[k] = v` on an insertion-ordered Python dict: overwrite in place if
the key exists, else append at the end. -/
def dictSet {α : Type} (o : List (String × α)) (k : String) (v : α) :
    List (String × α) :=
  match o with
  | [] => [(k, v)]
  | (k', v') :: rest => if k' = k then (k, v) :: rest else (k', v') :: dictSet rest k v

/-- `jget o k`: `dictGet` on a JSON object. -/
abbrev jget (o : JObj) (k : String) : Option JValue := dictGet o k

/-- `jset o k v`: `dictSet` on a JSON object. -/
abbrev jset (o : JObj) (k : String) (v : JValue) : JObj := dictSet o k v

/-- Python truthiness of a JSON value (`if x:`). -/
def JValue.isTruthy : JValue → Bool
  | .null => false
  | .bool b => b
  | .num q => q ≠ 0
  | .str s => s ≠ ""
  | .arr items => !items.isEmpty
  | .obj fields => !fields.isEmpty

/-- `isinstance(v, (int, float))`: Python `bool` is a subclass of `int`. -/
def JValue.isNumeric : JValue → Bool
  | .num _ => true
  | .bool _ => true
  | _ => false

/-- Numeric value of a JSON number for comparisons; Python booleans compare
as 1/0.  Non-numeric values (which would raise a `TypeError` in the Python
comparison) are mapped to 0. -/
def JValue.toNum : JValue → ℚ
  | .num q => q
  | .bool b => if b then 1 else 0
  | _ => 0

/-! ## Confidence updater (`validation/confidence_updater.py`) -/

/-- `UpdateSignal` enum. -/
inductive UpdateSignal : Type where
  | REPEATED_OCCURRENCE
  | CONSISTENT_RECALL
  | USER_AFFIRMATION
  | IMPLICIT_USER_SIGNAL
  | SYSTEM_CROSS_VALIDATION
  | CONFLICT_DETECTED
  | CONTRADICTION_BY_USER
  | INCONSISTENCY_OVER_TIME
  | SYSTEM_NOISE_DETECTED
deriving DecidableEq

/-- String value of each `UpdateSignal` enum member. -/
def UpdateSignal.key : UpdateSignal → String
  | .REPEATED_OCCURRENCE => "repeated_occurrence"
  | .CONSISTENT_RECALL => "consistent_recall"
  | .USER_AFFIRMATION => "user_affirmation"
  | .IMPLICIT_USER_SIGNAL => "implicit_user_signal"
  | .SYSTEM_CROSS_VALIDATION => "system_cross_validation"
  | .CONFLICT_DETECTED => "conflict_detected"
  | .CONTRADICTION_BY_USER => "contradiction_by_user"
  | .INCONSISTENCY_OVER_TIME => "inconsistency_over_time"
  | .SYSTEM_NOISE_DETECTED => "system_noise_detected"

/-- `ResolutionState` enum. -/
inductive ResolutionState : Type where
  | UNRESOLVED
  | RESOLVED
  | SUPPRESSED
deriving DecidableEq

/-- `EpistemicStatus` enum. -/
inductive EpistemicStatus : Type where
  | HYPOTHESIS
  | PROVISIONAL
  | CONFIRMED
deriving DecidableEq

/-- String value of each `EpistemicStatus` member. -/
def EpistemicStatus.value : EpistemicStatus → String
  | .HYPOTHESIS => "hypothesis"
  | .PROVISIONAL => "provisional"
  | .CONFIRMED => "confirmed"

/-- `StakesLevel` enum. -/
inductive StakesLevel : Type where
  | LOW
  | MEDIUM
  | HIGH
deriving DecidableEq

/-- String value of each `StakesLevel` member. -/
def StakesLevel.value : StakesLevel → String
  | .LOW => "low"
  | .MEDIUM => "medium"
  | .HIGH => "high"

/-- `SignalModifier` dataclass. -/
structure SignalModifier : Type where
  value : ℚ
  maxApplications : Option ℕ := none
  singleApplication : Bool := false
  forceConfirmed : Bool := false
deriving DecidableEq

/-- `SIGNAL_MODIFIERS` table. -/
def SIGNAL_MODIFIERS : UpdateSignal → SignalModifier
  | .REPEATED_OCCURRENCE => { value := 5/100, maxApplications := some 3 }
  | .CONSISTENT_RECALL => { value := 4/100, maxApplications := some 3 }
  | .USER_AFFIRMATION => { value := 30/100, singleApplication := true, forceConfirmed := true }
  | .IMPLICIT_USER_SIGNAL => { value := 10/100 }
  | .SYSTEM_CROSS_VALIDATION => { value := 8/100 }
  | .CONFLICT_DETECTED => { value := -20/100 }
  | .CONTRADICTION_BY_USER => { value := -35/100 }
  | .INCONSISTENCY_OVER_TIME => { value := -10/100 }
  | .SYSTEM_NOISE_DETECTED => { value := -8/100 }

/-- `RESOLUTION_MULTIPLIERS` table, as a pair (positive, negative). -/
def RESOLUTION_MULTIPLIERS : ResolutionState → ℚ × ℚ
  | .UNRESOLVED => (1/2, 1)
  | .RESOLVED => (1, 1/2)
  | .SUPPRESSED => (0, 0)

/-- `EPISTEMIC_THRESHOLDS` table. -/
def EPISTEMIC_THRESHOLDS : EpistemicStatus → ℚ
  | .CONFIRMED => 80/100
  | .PROVISIONAL => 45/100
  | .HYPOTHESIS => 0

/-- `MAX_CLARIFICATION_ATTEMPTS` table. -/
def MAX_CLARIFICATION_ATTEMPTS : StakesLevel → ℕ
  | .LOW => 2
  | .MEDIUM => 3
  | .HIGH => 4

/-- The two `continue` guards in the loop of
`ConfidenceUpdater.calculate_confidence`: skip when the per-signal
application count already reached `max_applications`, or when
`single_application` and already used once. -/
def skipSignal (m : SignalModifier) (timesApplied : ℚ) : Bool :=
  (match m.maxApplications with
   | some mx => timesApplied ≥ (mx : ℚ)
   | none => false)
  || (m.singleApplication && timesApplied > 0)

/-- Body of the `for signal in signals` loop of `calculate_confidence`:
one signal applied to the running confidence. -/
def applySignal (multipliers : ℚ × ℚ) (signalHistory : UpdateSignal → ℚ)
    (confidence : ℚ) (signal : UpdateSignal) : ℚ :=
  let modifier := SIGNAL_MODIFIERS signal
  if skipSignal modifier (signalHistory signal) then confidence
  else
    let value := modifier.value
    let value := if value > 0 then value * multipliers.1 else value * multipliers.2
    let confidence := confidence + value
    if modifier.forceConfirmed && signal = .USER_AFFIRMATION then
      max confidence (EPISTEMIC_THRESHOLDS .CONFIRMED)
    else confidence

/-- `ConfidenceUpdater.calculate_confidence`: fold the signals over the
current confidence, then clamp to [0, 1].  `signal_history` is modelled as
the total function `dict.get(signal, 0)`. -/
def calculate_confidence (currentConfidence : ℚ) (signals : List UpdateSignal)
    (resolutionState : ResolutionState) (signalHistory : UpdateSignal → ℚ) : ℚ :=
  let multipliers := RESOLUTION_MULTIPLIERS resolutionState
  let confidence := signals.foldl (applySignal multipliers signalHistory) currentConfidence
  max 0 (min 1 confidence)

/-- `ConfidenceUpdater.get_epistemic_status`. -/
def get_epistemic_status (confidence : ℚ) : EpistemicStatus :=
  if confidence ≥ EPISTEMIC_THRESHOLDS .CONFIRMED then .CONFIRMED
  else if confidence ≥ EPISTEMIC_THRESHOLDS .PROVISIONAL then .PROVISIONAL
  else .HYPOTHESIS

/-- `ConfidenceUpdater.should_consolidate`. -/
def should_consolidate (confidence : ℚ) : Bool :=
  confidence > 7/10

/-- `ConfidenceUpdater.check_clarification_limit`. -/
def check_clarification_limit (attempts : ℕ) (stakesLevel : StakesLevel) : Bool :=
  attempts ≥ MAX_CLARIFICATION_ATTEMPTS stakesLevel

/-- `ConfidenceUpdater.create_initial_entry` with the default
`initial_confidence = 0.3` used by `MSP` (fields in source order). -/
def create_initial_entry (concept definition : String) (stakesLevel : StakesLevel) : JObj :=
  [("concept", .str concept),
   ("definition", .str definition),
   ("epistemic_status", .str (get_epistemic_status (3/10)).value),
   ("confidence", .num (3/10)),
   ("resolution_state", .str "unresolved"),
   ("signal_history", .obj []),
   ("clarification_attempts", .num 0),
   ("stakes_level", .str stakesLevel.value),
   ("max_clarification_attempts", .num (MAX_CLARIFICATION_ATTEMPTS stakesLevel))]

/-- `ResolutionState(s)` for a string `s`; `none` models the `ValueError`
raised on an unknown value. -/
def parseResolutionState : String → Option ResolutionState
  | "unresolved" => some .UNRESOLVED
  | "resolved" => some .RESOLVED
  | "suppressed" => some .SUPPRESSED
  | _ => none

/-- `entry.get("signal_history", {})` as an object (`[]` when absent). -/
def signal_history_of (entry : JObj) : JObj :=
  match jget entry "signal_history" with
  | some (.obj fs) => fs
  | _ => []

/-- `signal_history.get(signal, 0)` after the string→enum key conversion
in `update_entry`.  Stored values are the integer counters the code
writes; a non-numeric stored value (which would raise a `TypeError` in the
Python comparisons) is mapped to 0. -/
def histCount (h : JObj) (s : UpdateSignal) : ℚ :=
  ((jget h s.key).getD (.num 0)).toNum

/-- The signal-history update loop of `ConfidenceUpdater.update_entry`:
`signal_history[key] = signal_history.get(key, 0) + 1` for each signal in
the batch, in order.  A non-numeric stored counter (which would raise a
`TypeError` in Python's `+ 1`) is coerced through `toNum`. -/
def bumpHistory (hist : JObj) (signals : List UpdateSignal) : JObj :=
  signals.foldl
    (fun h s => jset h s.key (.num (((jget h s.key).getD (.num 0)).toNum + 1))) hist

/-- Body of `ConfidenceUpdater.update_entry` once the current confidence,
resolution state and signal history have been extracted from the entry:
recompute the confidence, bump the per-signal history counters, rederive
the epistemic status, and auto-resolve a newly confirmed unresolved
entry. -/
def update_entry_core (entry : JObj) (signals : List UpdateSignal)
    (conf : ℚ) (rs : ResolutionState) (hist : JObj) : JObj :=
  let newConf := calculate_confidence conf signals rs (fun s => histCount hist s)
  let hist' := bumpHistory hist signals
  let newStatus := get_epistemic_status newConf
  let e := jset entry "confidence" (.num newConf)
  let e := jset e "epistemic_status" (.str newStatus.value)
  let e := jset e "signal_history" (.obj hist')
  if newStatus = .CONFIRMED && rs = .UNRESOLVED then
    jset e "resolution_state" (.str "resolved")
  else e

/-- `ConfidenceUpdater.update_entry`.  `none` models the exceptions Python
would raise while extracting a malformed `confidence`,
`resolution_state` or `signal_history` from the entry. -/
def update_entry (entry : JObj) (signals : List UpdateSignal) : Option JObj :=
  let confOpt : Option ℚ :=
    match jget entry "confidence" with
    | none => some (3/10)          -- `entry.get("confidence", self.initial_confidence)`
    | some (.num q) => some q
    | some (.bool b) => some (if b then 1 else 0)
    | some _ => none
  let rsOpt : Option ResolutionState :=
    match jget entry "resolution_state" with
    | none => some .UNRESOLVED
    | some (.str s) => parseResolutionState s
    | some _ => none
  let histOpt : Option JObj :=
    match jget entry "signal_history" with
    | none => some []
    | some (.obj fs) => some fs
    | some _ => none
  match confOpt, rsOpt, histOpt with
  | some conf, some rs, some hist => some (update_entry_core entry signals conf rs hist)
  | _, _, _ => none

/-! ## Forbidden-field scan (`validation/rules/forbidden_fields.py`,
`BaseValidator._scan_for_forbidden_fields`) -/

/-- `SEMANTIC_FORBIDDEN_FIELDS`. -/
def SEMANTIC_FORBIDDEN_FIELDS : List String :=
  ["promotion_level", "write_mode", "user_block"]

/-- `EPISODIC_FORBIDDEN_FIELDS`. -/
def EPISODIC_FORBIDDEN_FIELDS : List String :=
  ["RI", "RIM", "Resonance_impact", "salience_score", "memory_color_ref",
   "dose_input", "D_Remaining", "D_Cumulative", "hormone_level", "PK_state",
   "promotion_level", "write_mode", "admission_priority",
   "emotion_label", "primary_emotion", "emotional_label"]

mutual
/-- `_scan_for_forbidden_fields` over the pairs of a dict: no key may be
forbidden, and the scan recurses into dict values and into dict items of
list values. -/
def scanFieldsOk (forb : List String) : JObj → Bool
  | [] => true
  | (k, v) :: rest =>
      !(forb.contains k) && scanValOk forb v && scanFieldsOk forb rest

/-- Recursion of the scan into one value. -/
def scanValOk (forb : List String) : JValue → Bool
  | .obj fs => scanFieldsOk forb fs
  | .arr items => scanItemsOk forb items
  | _ => true

/-- Recursion of the scan into a list value: only items that are dicts are
scanned (nested lists are not). -/
def scanItemsOk (forb : List String) : List JValue → Bool
  | [] => true
  | .obj fs :: rest => scanFieldsOk forb fs && scanItemsOk forb rest
  | _ :: rest => scanItemsOk forb rest
end

/-! ## Semantic validator (`validation/semantic_validator.py`).
Only the error-producing checks are modelled: `ValidationResult.valid`
is true iff no `add_error` fired, and warnings/info never affect it. -/

/-- `SemanticValidator.EPISTEMIC_STATUSES`. -/
def EPISTEMIC_STATUSES : List String := ["hypothesis", "provisional", "confirmed"]

/-- `SemanticValidator.RESOLUTION_STATES`. -/
def RESOLUTION_STATES : List String := ["unresolved", "resolved", "suppressed"]

/-- `BaseValidator._check_required_fields`: all listed keys present. -/
def requiredOk (o : JObj) (fields : List String) : Bool :=
  fields.all (fun f => (jget o f).isSome)

/-- `BaseValidator._check_enum_value`: the value is one of the allowed
strings (a non-string value is never in the list of strings). -/
def enumOk (v : JValue) (allowed : List String) : Bool :=
  match v with
  | .str s => allowed.contains s
  | _ => false

/-- `BaseValidator._check_range` with bounds 0 and 1: numeric (Python
`bool` counts as `int`) and inside the closed interval. -/
def rangeOk01 (v : JValue) : Bool :=
  v.isNumeric && decide (0 ≤ v.toNum) && decide (v.toNum ≤ 1)

/-- `re.match(r'^[a-z][a-z0-9_]*[a-z0-9]$|^[a-z]$', s)` of
`SemanticValidator._is_lowercase_snake_case` (the `$`-before-final-newline
quirk of Python `re` is not modelled). -/
def isAZ (c : Char) : Bool := 'a' ≤ c && c ≤ 'z'

/-- Character class `[a-z0-9]`. -/
def isAZ09 (c : Char) : Bool := isAZ c || ('0' ≤ c && c ≤ '9')

/-- Character class `[a-z0-9_]`. -/
def isAZ09u (c : Char) : Bool := isAZ09 c || c = '_'

/-- Tail of the snake-case pattern: `[a-z0-9_]*[a-z0-9]`. -/
def snakeTail : List Char → Bool
  | [] => false
  | [c] => isAZ09 c
  | c :: rest => isAZ09u c && snakeTail rest

/-- `SemanticValidator._is_lowercase_snake_case`. -/
def is_lowercase_snake_case (s : String) : Bool :=
  match s.toList with
  | [] => false
  | [c] => isAZ c
  | c :: rest => isAZ c && snakeTail rest

/-- Semantic phase 1 (`_validate_structure`): no error. -/
def semPhase1Ok (entry : JObj) : Bool :=
  requiredOk entry ["concept", "epistemic_status", "confidence", "derived_from"]
  && (match jget entry "epistemic_status" with
      | some v => enumOk v EPISTEMIC_STATUSES
      | none => true)
  && (match jget entry "resolution_state" with
      | some v => enumOk v RESOLUTION_STATES
      | none => true)
  && (match jget entry "derived_from" with
      | some (.obj fs) => (jget fs "episode_id").isSome
      | some _ => false        -- "'derived_from' must be an object"
      | none => true)

/-- Semantic phase 2 (`_validate_concept_format`): no error.  The
certainty-word check only warns.  A truthy non-string concept would raise
a `TypeError` inside `re.match`; it is modelled as failing. -/
def semPhase2Ok (entry : JObj) : Bool :=
  match jget entry "concept" with
  | none => true
  | some v =>
      if v.isTruthy then
        match v with
        | .str s => is_lowercase_snake_case s
        | _ => false
      else true

/-- Semantic phase 3 (`_validate_confidence`): no error.  Only the range
check errors; the status-consistency check only warns. -/
def semPhase3Ok (entry : JObj) : Bool :=
  match jget entry "confidence" with
  | none => true
  | some .null => true           -- `if confidence is None: return result`
  | some v => rangeOk01 v

/-- `SemanticValidator.validate` run with no `existing_entries`, as
`validate_for_consolidation` does: phase 4 (conflict detection) is
skipped, and it only ever warns anyway.  Validity is the absence of
errors across the phases. -/
def semanticValidateOk (entry : JObj) : Bool :=
  semPhase1Ok entry && semPhase2Ok entry && semPhase3Ok entry
  && scanFieldsOk SEMANTIC_FORBIDDEN_FIELDS entry

/-- `entry.get("confidence", 0.0)` as a number. -/
def entryConfidence (entry : JObj) : ℚ :=
  ((jget entry "confidence").getD (.num 0)).toNum

/-- `SemanticValidator.validate_for_consolidation`:
reject at or below the threshold 0.7, else require a passing validation. -/
def validate_for_consolidation (entry : JObj) : Bool :=
  if entryConfidence entry ≤ 7/10 then false
  else semanticValidateOk entry

/-! ## Semantic merge (`MSP._merge_semantic`).
The master file's bookkeeping keys are elided: the function is modelled on
the `entries` lists of the master and buffer files.  Keys of the Python
`concept_map` are the `concept` values; only string concepts are
modelled (the entries the system writes always carry string concepts). -/

/-- `concept = entry.get("concept")` followed by `if concept:`. -/
def conceptKey (entry : JObj) : Option String :=
  match jget entry "concept" with
  | some (.str s) => if s = "" then none else some s
  | _ => none

/-- First loop of the dedup step: `concept_map[concept] = entry` for every
master entry with a truthy concept. -/
def buildConceptMap (m : List (String × JObj)) : List JObj → List (String × JObj)
  | [] => m
  | e :: rest =>
      match conceptKey e with
      | some c => buildConceptMap (dictSet m c e) rest
      | none => buildConceptMap m rest

/-- Second loop of the dedup step: each accepted new entry replaces an
existing same-concept entry only when its confidence is strictly higher,
and is inserted when the concept is new. -/
def mergeNewEntries (m : List (String × JObj)) : List JObj → List (String × JObj)
  | [] => m
  | e :: rest =>
      match conceptKey e with
      | some c =>
          match dictGet m c with
          | some existing =>
              if entryConfidence e > entryConfidence existing then
                mergeNewEntries (dictSet m c e) rest
              else
                mergeNewEntries m rest
          | none => mergeNewEntries (dictSet m c e) rest
      | none => mergeNewEntries m rest

/-- `MSP._merge_semantic` on the two `entries` lists: filter the buffer
through `validate_for_consolidation`, then rebuild the master list as the
values of the concept map. -/
def merge_semantic (masterEntries bufferEntries : List JObj) : List JObj :=
  let newEntries := bufferEntries.filter validate_for_consolidation
  let conceptMap := buildConceptMap [] masterEntries
  let conceptMap := mergeNewEntries conceptMap newEntries
  conceptMap.map Prod.snd

/-! ## Episodic validator (`validation/episodic_validator.py`).
As for the semantic validator, only error-producing checks are modelled:
phase 2 (`_phase2_epistemic`) only ever adds warnings and is therefore
absent from validity. -/

/-- `EpisodicValidator.EPISODE_TYPES`. -/
def EPISODE_TYPES : List String := ["interaction", "observation", "system_event"]

/-- `EpisodicValidator.INTERACTION_MODES`. -/
def INTERACTION_MODES : List String := ["casual", "discussion", "deep_discussion", "crisis"]

/-- `EpisodicValidator.STAKES_LEVELS` / `TIME_PRESSURES`. -/
def LEVELS_LOW_MEDIUM_HIGH : List String := ["low", "medium", "high"]

/-- `EpisodicValidator.SPEAKER_VALUES`. -/
def SPEAKER_VALUES : List String := ["user", "eva"]

/-- `EpisodicValidator.EPISTEMIC_STATUSES` (for `affective_inference`). -/
def AFFECTIVE_EPISTEMIC_STATUSES : List String := ["hypothesize", "speculate"]

/-- `EpisodicValidator.EVA_MATRIX_AXES`. -/
def EVA_MATRIX_AXES : List String :=
  ["stress_load", "social_warmth", "drive_level", "cognitive_clarity"]

/-- `EpisodicValidator.CROSSLINK_TYPES`. -/
def CROSSLINK_TYPES : List String :=
  ["ess_refs", "eva_matrix_refs", "rms_refs", "semantic_refs", "sensory_refs", "gks_refs"]

/-- `_validate_affective_inference`: must be a dict whose
`epistemic_status` is present and one of `hypothesize`/`speculate`. -/
def affectiveInferenceOk (v : JValue) : Bool :=
  match v with
  | .obj fs =>
      (match jget fs "epistemic_status" with
       | some st => enumOk st AFFECTIVE_EPISTEMIC_STATUSES
       | none => false)
  | _ => false

/-- Per-turn checks of `_validate_turns`: a turn must be a dict (a
non-dict turn is an error and is skipped), carry a `turn_id` that was not
seen before, have a legal `speaker` if present, and a legal
`affective_inference` if present.  Duplicate detection is modelled for
string turn ids (the ids the system generates); Python would also track
other hashable ids. -/
def turnsOkFrom (seen : List String) : List JValue → Bool
  | [] => true
  | .obj turn :: rest =>
      let idOk := match jget turn "turn_id" with
        | some (.str s) => !(seen.contains s)
        | some _ => true
        | none => false
      let seen' := match jget turn "turn_id" with
        | some (.str s) => s :: seen
        | _ => seen
      idOk
      && (match jget turn "speaker" with
          | some v => enumOk v SPEAKER_VALUES
          | none => true)
      && (match jget turn "affective_inference" with
          | some v => affectiveInferenceOk v
          | none => true)
      && turnsOkFrom seen' rest
  | _ :: rest => false && turnsOkFrom seen rest

/-- `_validate_turns`: `turns` must be a list and every turn must pass. -/
def turnsOk (v : JValue) : Bool :=
  match v with
  | .arr ts => turnsOkFrom [] ts
  | _ => false

/-- Episodic phase 1 (`_phase1_structural`): no error.  The four
top-level sections are required only when `ri_level` is not L1/L2; the
enum and turn checks run whenever the keys are present.  A non-dict
`episode_header`/`situation_context` is modelled as having no keys. -/
def epiPhase1Ok (episode : JObj) (riLevel : String) : Bool :=
  (if riLevel = "L1" ∨ riLevel = "L2" then true
   else requiredOk episode ["episode_header", "situation_context", "turns", "emotive_snapshot"])
  && (match jget episode "episode_header" with
      | some (.obj header) =>
          (match jget header "episode_type" with
           | some v => enumOk v EPISODE_TYPES
           | none => true)
      | _ => true)
  && (match jget episode "situation_context" with
      | some (.obj ctx) =>
          (match jget ctx "interaction_mode" with
           | some v => enumOk v INTERACTION_MODES
           | none => true)
          && (match jget ctx "stakes_level" with
              | some v => enumOk v LEVELS_LOW_MEDIUM_HIGH
              | none => true)
          && (match jget ctx "time_pressure" with
              | some v => enumOk v LEVELS_LOW_MEDIUM_HIGH
              | none => true)
      | _ => true)
  && (match jget episode "turns" with
      | some v => turnsOk v
      | none => true)

/-- `_validate_eva_matrix`: a dict with all four axes present and in
[0, 1], and no extra axes. -/
def evaMatrixOk (v : JValue) : Bool :=
  match v with
  | .obj fs =>
      EVA_MATRIX_AXES.all (fun axis =>
        match jget fs axis with
        | some x => rangeOk01 x
        | none => false)
      && fs.all (fun kv => EVA_MATRIX_AXES.contains kv.1)
  | _ => false

/-- `_validate_qualia`: a dict with `intensity` in [0, 1] and no other
field. -/
def qualiaOk (v : JValue) : Bool :=
  match v with
  | .obj fs =>
      (match jget fs "intensity" with
       | some x => rangeOk01 x
       | none => false)
      && fs.all (fun kv => kv.1 = "intensity")
  | _ => false

/-- `_validate_reflex`: a dict with `threat_level` in [0, 1] and no other
field. -/
def reflexOk (v : JValue) : Bool :=
  match v with
  | .obj fs =>
      (match jget fs "threat_level" with
       | some x => rangeOk01 x
       | none => false)
      && fs.all (fun kv => kv.1 = "threat_level")
  | _ => false

/-- `episode_data.get("emotive_snapshot", {})` as a dict (the code would
raise on a non-dict value; modelled as empty). -/
def emotiveSnapshotOf (episode : JObj) : JObj :=
  match jget episode "emotive_snapshot" with
  | some (.obj fs) => fs
  | _ => []

/-- Episodic phase 3 (`_phase3_state`): no error.  When
`emotive_snapshot.indexed_state` is falsy (absent or empty) the phase adds
only the info line "No indexed_state present (acceptable for L1/L2)" and
returns — it does not receive `ri_level` and never errors in that case. -/
def epiPhase3Ok (episode : JObj) : Bool :=
  let indexedState : JObj :=
    match jget (emotiveSnapshotOf episode) "indexed_state" with
    | some (.obj fs) => fs
    | _ => []
  if indexedState.isEmpty then true
  else
    (match jget indexedState "eva_matrix" with
     | some v => evaMatrixOk v
     | none => false)
    && (match jget indexedState "qualia" with
        | some v => qualiaOk v
        | none => false)
    && (match jget indexedState "reflex" with
        | some v => reflexOk v
        | none => false)

/-- Value check of `_phase4_crosslinks` for a recognized crosslink key: a
list value may contain only strings; dict values only ever warn, and
scalar values are not checked. -/
def crosslinkValOk (v : JValue) : Bool :=
  match v with
  | .arr items => items.all (fun item => match item with | .str _ => true | _ => false)
  | _ => true

/-- Episodic phase 4 (`_phase4_crosslinks`): no error.  `crosslinks`
defaults to `{}`; a non-dict is an error; every key must be a recognized
crosslink type, and values of recognized keys must pass `crosslinkValOk`
(an entry with an unrecognized key errors on the key and its value is not
checked — as a validity bit this coincides with the conjunction). -/
def epiPhase4Ok (episode : JObj) : Bool :=
  match jget (emotiveSnapshotOf episode) "crosslinks" with
  | none => true
  | some (.obj fs) =>
      fs.all (fun kv => CROSSLINK_TYPES.contains kv.1 && crosslinkValOk kv.2)
  | some _ => false

/-- `EpisodicValidator.validate`: validity across the five phases
(phase 2 adds warnings only). -/
def episodicValidateOk (episode : JObj) (riLevel : String) : Bool :=
  epiPhase1Ok episode riLevel && epiPhase3Ok episode && epiPhase4Ok episode
  && scanFieldsOk EPISODIC_FORBIDDEN_FIELDS episode

/-! ## RI filter and `write_episode` (`MSP.py`) -/

/-- `MSP._apply_ri_filter`.  `now` stands for the `now_iso()` timestamp
used as default when the episode has none. -/
def apply_ri_filter (now : String) (episode : JObj) (riLevel : String) : JObj :=
  if riLevel = "L1" then
    [("episode_id", (jget episode "episode_id").getD .null),
     ("timestamp", (jget episode "timestamp").getD (.str now)),
     ("emotive_snapshot", (jget episode "emotive_snapshot").getD (.obj []))]
  else if riLevel = "L2" then
    [("episode_id", (jget episode "episode_id").getD .null),
     ("timestamp", (jget episode "timestamp").getD (.str now)),
     ("summary", (jget episode "summary").getD (.str "")),
     ("emotive_snapshot", (jget episode "emotive_snapshot").getD (.obj []))]
  else episode

/-- The `validation_mode` of `MSP` ("strict", "warn", "off"). -/
inductive ValidationMode : Type where
  | strict
  | warn
  | off
deriving DecidableEq

/-- Errors `write_episode` can raise. -/
inductive WriteEpisodeError : Type where
  | noSession          -- RuntimeError "Must start_session() first"
  | capacity           -- RuntimeError "... reached max 30 episodes ..."
  | validation         -- MSPValidationError in strict mode
deriving DecidableEq

/-- The session-relevant state of `MSP` used by `write_episode`:
`session_id is not None` and `session_episode_count`. -/
structure SessionCtx : Type where
  sessionActive : Bool
  episodeCount : ℕ
deriving DecidableEq

/-- `MSP.write_episode`, projected onto the session state: the no-session
and capacity guards, the validation checkpoint (raising only in strict
mode), and the counter increment of a successful write.  Episode-id
generation, RI filtering, metadata stamping and the buffer append act on
the buffer file and are modelled elsewhere (`apply_ri_filter`). -/
def write_episode (mode : ValidationMode) (ctx : SessionCtx)
    (episode : JObj) (riLevel : String) : Except WriteEpisodeError SessionCtx :=
  if !ctx.sessionActive then .error .noSession
  else if ctx.episodeCount ≥ 30 then .error .capacity
  else if mode ≠ .off ∧ ¬episodicValidateOk episode riLevel ∧ mode = .strict then
    .error .validation
  else .ok { ctx with episodeCount := ctx.episodeCount + 1 }

/-! ## `write_semantic` entry construction (`MSP.py`) -/

/-- The `proposal_data` dict built by `write_semantic` (with
`turn_ids` added when truthy, and `conflicts_with` attached when the
validator reported a conflict). -/
def proposalData (concept definition episodeId : String)
    (turnIds : List String) (conflictsWith : Option String) : JObj :=
  let derived : JObj :=
    [("episode_id", .str episodeId)]
    ++ (if turnIds.isEmpty then [] else [("turn_ids", .arr (turnIds.map .str))])
  [("concept", .str concept), ("definition", .str definition),
   ("derived_from", .obj derived)]
  ++ (match conflictsWith with
      | some c => [("conflicts_with", .arr [.str c])]
      | none => [])

/-- The semantic entry `write_semantic` persists to the buffer:
`create_initial_entry`, then `entry.update(proposal_data)`, then the
timestamps and the generated `semantic_id`.  `createdAt`, `lastUpdated`
and `semanticId` stand for the two `now_iso()` calls and the generated
id. -/
def write_semantic_entry (concept definition episodeId : String)
    (turnIds : List String) (conflictsWith : Option String)
    (stakesLevel : StakesLevel) (createdAt lastUpdated semanticId : String) : JObj :=
  let entry := create_initial_entry concept definition stakesLevel
  let entry := (proposalData concept definition episodeId turnIds conflictsWith).foldl
    (fun e kv => jset e kv.1 kv.2) entry
  let entry := jset entry "created_at" (.str createdAt)
  let entry := jset entry "last_updated" (.str lastUpdated)
  jset entry "semantic_id" (.str semanticId)

/-! ## Consolidation (`MSP.consolidate_to_origin`,
`MSP._create_origin_backup`).  Origin's three master files are modelled by
their content lists (`episodes` / `entries`; the bookkeeping keys
`system`, `user_id`, `timestamp` are elided), the version file by a
natural number, and the `Backups/` directory by a directory counter. -/

/-- Errors of the consolidation path. -/
inductive MSPErr : Type where
  | runtime            -- RuntimeError "No active instance"
  | backup             -- MSPBackupError
  | consolidation      -- MSPConsolidationError
deriving DecidableEq

/-- Origin (master state) as observed on disk. -/
structure OriginState : Type where
  episodes : List JObj
  semanticEntries : List JObj
  sensoryEntries : List JObj
  version : ℕ
  backupCount : ℕ

/-- The three buffer files of the active instance; `none` means the file
does not exist.  `load_json` on a missing or malformed file yields `{}`,
whose `episodes`/`entries` default to `[]`. -/
structure InstanceBuffers : Type where
  episodic : Option (List JObj)
  semantic : Option (List JObj)
  sensory : Option (List JObj)

/-- `MSP._create_origin_backup`: `ensure_dir` creates the timestamped
backup directory, then the directory copies may fail (`backupOk = false`),
raising `MSPBackupError`; the directory created first remains either
way. -/
def create_origin_backup (backupOk : Bool) (st : OriginState) :
    Except MSPErr Unit × OriginState :=
  let st' := { st with backupCount := st.backupCount + 1 }
  if backupOk then (.ok (), st') else (.error .backup, st')

/-- `MSP.consolidate_to_origin`.  `sensoryValid` abstracts
`SensoryValidator.validate(entry).valid` used by `_merge_sensory` (the
sensory validator is outside the scope of the claims).  Any exception
inside the `try` block — including the `MSPBackupError` of the backup
step — is caught by `except Exception` and re-raised as
`MSPConsolidationError`.  The post-merge `_verify_origin_integrity` always
passes here: the merge steps have just rewritten each master file with its
required top-level key.  Returns the result together with the state on
disk when the call returns or raises. -/
def consolidate_to_origin (sensoryValid : JObj → Bool) (backupOk : Bool)
    (st : OriginState) (inst : Option InstanceBuffers) :
    Except MSPErr ℕ × OriginState × Option InstanceBuffers :=
  match inst with
  | none => (.error .runtime, st, none)
  | some bufs =>
    match create_origin_backup backupOk st with
    | (.error _, st1) => (.error .consolidation, st1, some bufs)
    | (.ok _, st1) =>
      if bufs.episodic.isNone && bufs.semantic.isNone && bufs.sensory.isNone then
        (.ok st1.version, st1, some bufs)
      else
        let st2 := { st1 with episodes := st1.episodes ++ bufs.episodic.getD [] }
        let st3 := { st2 with
          semanticEntries := merge_semantic st2.semanticEntries (bufs.semantic.getD []) }
        let st4 := { st3 with
          sensoryEntries := st3.sensoryEntries ++ (bufs.sensory.getD []).filter sensoryValid }
        let st5 := { st4 with version := st4.version + 1 }
        (.ok st5.version, st5, none)

/-! ## Concrete semantic entries used by the claims (the spec's
consolidation-filter scenario: buffered confidences 0.69 / 0.71, and the
dedup scenario: same concept at 0.72 in Origin and 0.90 in the buffer) -/

/-- A buffered semantic entry with confidence 0.69 and otherwise valid
fields. -/
def bufferedEntry069 : JObj :=
  [("concept", .str "user_prefers_tea"), ("definition", .str "User prefers tea"),
   ("epistemic_status", .str "provisional"), ("confidence", .num (69/100)),
   ("resolution_state", .str "unresolved"),
   ("derived_from", .obj [("episode_id", .str "ep_S01_001_abc123")])]

/-- A buffered semantic entry with confidence 0.71 and otherwise valid
fields. -/
def bufferedEntry071 : JObj :=
  [("concept", .str "user_name_anna"), ("definition", .str "The user is called Anna"),
   ("epistemic_status", .str "provisional"), ("confidence", .num (71/100)),
   ("resolution_state", .str "unresolved"),
   ("derived_from", .obj [("episode_id", .str "ep_S01_001_abc123")])]

/-- An Origin entry with confidence 0.72. -/
def originEntry072 : JObj :=
  [("concept", .str "user_home_city"), ("definition", .str "The user lives in Bangkok"),
   ("epistemic_status", .str "provisional"), ("confidence", .num (72/100)),
   ("resolution_state", .str "unresolved"),
   ("derived_from", .obj [("episode_id", .str "ep_S01_002_abc124")])]

/-- A buffered entry sharing its concept with `originEntry072`, at
confidence 0.90. -/
def bufferedEntry090 : JObj :=
  [("concept", .str "user_home_city"), ("definition", .str "The user lives in Chiang Mai"),
   ("epistemic_status", .str "confirmed"), ("confidence", .num (90/100)),
   ("resolution_state", .str "resolved"),
   ("derived_from", .obj [("episode_id", .str "ep_S02_001_abc125")])]

/-! ## Signal-application instrumentation for the per-signal caps.
Within one `calculate_confidence` batch the skip checks of every
occurrence of a signal read the same (unincremented) `signal_history`
count, so either every occurrence of the signal in the batch is applied
or none is; `update_entry` then increments the per-signal counter once
per occurrence. -/

/-- Number of occurrences of `s` in one `update_entry` batch whose delta
is applied by `calculate_confidence` (0 when the skip guards fire for the
recorded count, else every occurrence).  Histories are the natural-number
counters `update_entry` maintains. -/
def appliedInBatch (hist : UpdateSignal → ℕ) (batch : List UpdateSignal)
    (s : UpdateSignal) : ℕ :=
  if skipSignal (SIGNAL_MODIFIERS s) ((hist s : ℚ)) then 0 else batch.count s

/-- Total number of applied occurrences of `s` over a sequence of
`update_entry` batches, threading the signal-history increments of each
call. -/
def totalApplied (hist : UpdateSignal → ℕ) (batches : List (List UpdateSignal))
    (s : UpdateSignal) : ℕ :=
  match batches with
  | [] => 0
  | b :: rest =>
      appliedInBatch hist b s + totalApplied (fun t => hist t + b.count t) rest s

/-- The cap a signal's guards enforce: `max_applications` when set, one
application for `single_application` signals, none otherwise. -/
def effectiveCap (s : UpdateSignal) : Option ℕ :=
  match (SIGNAL_MODIFIERS s).maxApplications with
  | some mx => some mx
  | none => if (SIGNAL_MODIFIERS s).singleApplication then some 1 else none

/-! ## Concrete episodes and consolidation states used by the claims -/

/-- A fully valid L3 episode (all required sections, a complete
`indexed_state`, empty crosslinks). -/
def fullEpisode : JObj :=
  [("episode_header", .obj [("episode_type", .str "interaction")]),
   ("situation_context", .obj [("interaction_mode", .str "discussion"),
      ("stakes_level", .str "medium"), ("time_pressure", .str "low")]),
   ("turns", .arr [.obj [("turn_id", .str "t1"), ("speaker", .str "user"),
      ("raw_text", .str "hello")]]),
   ("emotive_snapshot", .obj [
      ("indexed_state", .obj [
        ("eva_matrix", .obj [("stress_load", .num (3/10)), ("social_warmth", .num (7/10)),
          ("drive_level", .num (5/10)), ("cognitive_clarity", .num (8/10))]),
        ("qualia", .obj [("intensity", .num (5/10))]),
        ("reflex", .obj [("threat_level", .num (2/10))])]),
      ("crosslinks", .obj [])])]

/-- An L3 episode identical to `fullEpisode` except that its
`emotive_snapshot` carries no `indexed_state` at all. -/
def episodeNoIndexedState : JObj :=
  [("episode_header", .obj [("episode_type", .str "interaction")]),
   ("situation_context", .obj [("interaction_mode", .str "discussion"),
      ("stakes_level", .str "medium"), ("time_pressure", .str "low")]),
   ("turns", .arr [.obj [("turn_id", .str "t1"), ("speaker", .str "user"),
      ("raw_text", .str "hello")]]),
   ("emotive_snapshot", .obj [("crosslinks", .obj [])])]

/-- A small Origin state (version 1, one entry per store, no backups
yet). -/
def originState1 : OriginState :=
  { episodes := [fullEpisode], semanticEntries := [originEntry072],
    sensoryEntries := [], version := 1, backupCount := 0 }

/-- Instance buffers with an episodic and a semantic buffer file
present. -/
def buffersNonEmpty : InstanceBuffers :=
  { episodic := some [episodeNoIndexedState], semantic := some [bufferedEntry090],
    sensory := none }

/-- Instance buffers with none of the three buffer files present. -/
def buffersNone : InstanceBuffers :=
  { episodic := none, semantic := none, sensory := none }

/-! ## Association-list lemmas -/

theorem mem_dictSet {α : Type} (m : List (String × α)) (k : String) (v : α)
    (p : String × α) (hp : p ∈ dictSet m k v) : p ∈ m ∨ p = (k, v) := by
  induction m with
  | nil =>
    simp only [dictSet, List.mem_singleton] at hp
    exact Or.inr hp
  | cons hd tl ih =>
    rw [show dictSet (hd :: tl) k v =
          if hd.1 = k then (k, v) :: tl else hd :: dictSet tl k v from rfl] at hp
    by_cases h : hd.1 = k
    · rw [if_pos h] at hp
      rcases List.mem_cons.mp hp with h1 | h1
      · exact Or.inr h1
      · exact Or.inl (List.mem_cons_of_mem hd h1)
    · rw [if_neg h] at hp
      rcases List.mem_cons.mp hp with h1 | h1
      · exact Or.inl (h1 ▸ List.mem_cons_self hd tl)
      · rcases ih h1 with h2 | h2
        · exact Or.inl (List.mem_cons_of_mem hd h2)
        · exact Or.inr h2

theorem mem_buildConceptMap (es : List JObj) :
    ∀ m p, p ∈ buildConceptMap m es → p ∈ m ∨ p.2 ∈ es := by
  induction es with
  | nil => intro m p hp; exact Or.inl hp
  | cons e rest ih =>
    intro m p hp
    rw [buildConceptMap] at hp
    cases hck : conceptKey e with
    | some c =>
      rw [hck] at hp
      rcases ih _ p hp with h1 | h1
      · rcases mem_dictSet _ _ _ _ h1 with h2 | h2
        · exact Or.inl h2
        · exact Or.inr (by rw [h2]; exact List.mem_cons_self e rest)
      · exact Or.inr (List.mem_cons_of_mem e h1)
    | none =>
      rw [hck] at hp
      rcases ih _ p hp with h1 | h1
      · exact Or.inl h1
      · exact Or.inr (List.mem_cons_of_mem e h1)

theorem mem_mergeNewEntries (es : List JObj) :
    ∀ m p, p ∈ mergeNewEntries m es → p ∈ m ∨ p.2 ∈ es := by
  induction es with
  | nil => intro m p hp; exact Or.inl hp
  | cons e rest ih =>
    intro m p hp
    rw [mergeNewEntries] at hp
    cases hck : conceptKey e with
    | some c =>
      simp only [hck] at hp
      cases hex : dictGet m c with
      | some existing =>
        simp only [hex] at hp
        by_cases hcmp : entryConfidence e > entryConfidence existing
        · rw [if_pos hcmp] at hp
          rcases ih _ p hp with h1 | h1
          · rcases mem_dictSet _ _ _ _ h1 with h2 | h2
            · exact Or.inl h2
            · exact Or.inr (by rw [h2]; exact List.mem_cons_self e rest)
          · exact Or.inr (List.mem_cons_of_mem e h1)
        · rw [if_neg hcmp] at hp
          rcases ih _ p hp with h1 | h1
          · exact Or.inl h1
          · exact Or.inr (List.mem_cons_of_mem e h1)
      | none =>
        simp only [hex] at hp
        rcases ih _ p hp with h1 | h1
        · rcases mem_dictSet _ _ _ _ h1 with h2 | h2
          · exact Or.inl h2
          · exact Or.inr (by rw [h2]; exact List.mem_cons_self e rest)
        · exact Or.inr (List.mem_cons_of_mem e h1)
    | none =>
      simp only [hck] at hp
      rcases ih _ p hp with h1 | h1
      · exact Or.inl h1
      · exact Or.inr (List.mem_cons_of_mem e h1)

/-- `validate_for_consolidation` unfolded into its two conditions. -/
theorem validate_for_consolidation_iff (e : JObj) :
    validate_for_consolidation e = true ↔
      7/10 < entryConfidence e ∧ semanticValidateOk e = true := by
  unfold validate_for_consolidation
  by_cases h : entryConfidence e ≤ 7/10
  · simp [h, not_lt.mpr h]
  · simp [h, lt_of_not_le h]

/-- Core admission lemma for `_merge_semantic`: an entry of the merged
master list is either an old master entry or a buffered entry that passed
`validate_for_consolidation`. -/
theorem mem_merge_semantic (master buffer : List JObj) (e : JObj)
    (h : e ∈ merge_semantic master buffer) :
    e ∈ master ∨ validate_for_consolidation e = true := by
  unfold merge_semantic at h
  obtain ⟨p, hp, hpe⟩ := List.mem_map.mp h
  rcases mem_mergeNewEntries _ _ p hp with h1 | h1
  · rcases mem_buildConceptMap _ _ p h1 with h2 | h2
    · exact absurd h2 (List.not_mem_nil p)
    · exact Or.inl (hpe ▸ h2)
  · have := List.mem_filter.mp h1
    exact Or.inr (hpe ▸ this.2)

/-- Lookup after a dict assignment. -/
theorem dictGet_dictSet {α : Type} (m : List (String × α)) (k k' : String) (v : α) :
    dictGet (dictSet m k v) k' = if k = k' then some v else dictGet m k' := by
  induction m with
  | nil => simp [dictSet, dictGet]
  | cons hd tl ih =>
    rcases hd with ⟨hk, hv⟩
    by_cases h1 : hk = k <;> by_cases h2 : k = k' <;> by_cases h3 : hk = k' <;>
      simp_all [dictSet, dictGet]

section
/- The rational operations of Batteries are `@[irreducible]`, which blocks
`decide`/`rfl` evaluation of the embedded definitions on concrete inputs;
restore the default reducibility locally for the proofs. -/
attribute [local semireducible] Rat.add Rat.mul Rat.sub Rat.inv Rat.ofScientific

/-- C1: semantic merge during `consolidate_to_origin` admits a buffered
entry into Origin only when its confidence is strictly above 0.70 (and it
re-validates); with buffered confidences 0.69 and 0.71 only the 0.71
entry appears in the merged Origin; and when an admitted entry shares its
concept with an Origin entry, the strictly-higher-confidence one of the
two survives deduplication. -/
theorem semantic_merge_admits_above_070_and_dedups_by_confidence :
    (∀ master buffer e, e ∈ merge_semantic master buffer →
       e ∈ master ∨ (7/10 < entryConfidence e ∧ semanticValidateOk e = true)) ∧
    merge_semantic [] [bufferedEntry069, bufferedEntry071] = [bufferedEntry071] ∧
    (∀ eOld eNew c, conceptKey eOld = some c → conceptKey eNew = some c →
       validate_for_consolidation eNew = true →
       merge_semantic [eOld] [eNew] =
         [if entryConfidence eNew > entryConfidence eOld then eNew else eOld]) := by
  refine ⟨?_, ?_, ?_⟩
  · intro master buffer e h
    rcases mem_merge_semantic master buffer e h with h1 | h1
    · exact Or.inl h1
    · exact Or.inr ((validate_for_consolidation_iff e).mp h1)
  · rfl
  · intro eOld eNew c hOld hNew hval
    simp only [merge_semantic, List.filter_cons, List.filter_nil, hval, if_pos]
    simp only [buildConceptMap, hOld, mergeNewEntries, hNew]
    simp only [dictSet, dictGet, if_pos]
    split
    · simp [dictSet]
    · simp

/-- Witness for C1: the spec's dedup scenario — an Origin entry at 0.72
and a buffered entry at 0.90 sharing the concept leave only the 0.90
entry, and the 0.71 entry of the filter scenario indeed clears the
admission conditions. -/
theorem semantic_merge_admits_above_070_and_dedups_by_confidence_witness :
    merge_semantic [originEntry072] [bufferedEntry090] = [bufferedEntry090] ∧
    (bufferedEntry071 ∈ ([] : List JObj) ∨
      (7/10 < entryConfidence bufferedEntry071 ∧
        semanticValidateOk bufferedEntry071 = true)) := by
  constructor
  · have h := semantic_merge_admits_above_070_and_dedups_by_confidence.2.2
      originEntry072 bufferedEntry090 "user_home_city" rfl rfl (by rfl)
    rw [h]
    rfl
  · exact semantic_merge_admits_above_070_and_dedups_by_confidence.1 []
      [bufferedEntry069, bufferedEntry071] bufferedEntry071
      (by rw [semantic_merge_admits_above_070_and_dedups_by_confidence.2.1]
          exact List.mem_singleton.mpr rfl)

/-- The `USER_AFFIRMATION` skip guard is exactly "already applied once". -/
theorem skipSignal_user_affirmation (h : ℚ) :
    skipSignal (SIGNAL_MODIFIERS .USER_AFFIRMATION) h = decide (0 < h) := by
  simp [skipSignal, SIGNAL_MODIFIERS]

/-- Clamping is the identity on [0, 1]. -/
theorem clamp01_of_mem (x : ℚ) (h0 : 0 ≤ x) (h1 : x ≤ 1) :
    max 0 (min 1 x) = x := by
  rw [min_eq_right h1, max_eq_right h0]

/-- One loop iteration of `calculate_confidence` in the suppressed state:
the zero multipliers cancel every delta, so the running confidence is
unchanged except that an unskipped `USER_AFFIRMATION` still applies its
`force_confirmed` floor. -/
theorem applySignal_suppressed (hist : UpdateSignal → ℚ) (x : ℚ) (s : UpdateSignal) :
    applySignal (RESOLUTION_MULTIPLIERS .SUPPRESSED) hist x s =
      if s = .USER_AFFIRMATION ∧ skipSignal (SIGNAL_MODIFIERS s) (hist s) = false then
        max x (EPISTEMIC_THRESHOLDS .CONFIRMED)
      else x := by
  unfold applySignal
  by_cases hskip : skipSignal (SIGNAL_MODIFIERS s) (hist s) = true
  · simp [hskip]
  · cases s <;>
      simp_all [SIGNAL_MODIFIERS, RESOLUTION_MULTIPLIERS, EPISTEMIC_THRESHOLDS]

/-- The signal fold of `calculate_confidence` in the suppressed state. -/
theorem foldl_applySignal_suppressed (hist : UpdateSignal → ℚ)
    (signals : List UpdateSignal) :
    ∀ x : ℚ, signals.foldl (applySignal (RESOLUTION_MULTIPLIERS .SUPPRESSED) hist) x =
      if .USER_AFFIRMATION ∈ signals ∧
          skipSignal (SIGNAL_MODIFIERS .USER_AFFIRMATION) (hist .USER_AFFIRMATION) = false
      then max x (EPISTEMIC_THRESHOLDS .CONFIRMED)
      else x := by
  induction signals with
  | nil => intro x; simp
  | cons s rest ih =>
    intro x
    rw [List.foldl_cons, applySignal_suppressed]
    by_cases hs : s = .USER_AFFIRMATION
    · subst hs
      by_cases hskip :
          skipSignal (SIGNAL_MODIFIERS .USER_AFFIRMATION) (hist .USER_AFFIRMATION) = true
      · rw [if_neg (by simp [hskip])]
        rw [ih x]
        simp [hskip]
      · rw [if_pos ⟨rfl, by simpa using hskip⟩]
        rw [ih]
        by_cases hmem : UpdateSignal.USER_AFFIRMATION ∈ rest
        · rw [if_pos ⟨hmem, by simpa using hskip⟩]
          rw [if_pos ⟨List.mem_cons_self _ _, by simpa using hskip⟩]
          rw [max_assoc, max_self]
        · rw [if_neg (by simp [hmem])]
          rw [if_pos ⟨List.mem_cons_self _ _, by simpa using hskip⟩]
    · rw [if_neg (by simp [hs])]
      rw [ih x]
      have hmem : (UpdateSignal.USER_AFFIRMATION ∈ s :: rest) ↔
          (UpdateSignal.USER_AFFIRMATION ∈ rest) := by
        constructor
        · intro h
          rcases List.mem_cons.mp h with h | h
          · exact absurd h.symm hs
          · exact h
        · exact List.mem_cons_of_mem s
      by_cases hrest : UpdateSignal.USER_AFFIRMATION ∈ rest ∧
          skipSignal (SIGNAL_MODIFIERS .USER_AFFIRMATION) (hist .USER_AFFIRMATION) = false
      · rw [if_pos hrest, if_pos ⟨hmem.mpr hrest.1, hrest.2⟩]
      · rw [if_neg hrest, if_neg (by rw [hmem] at *; exact hrest)]

/-- C2 (counterexample): in the suppressed state a first
`USER_AFFIRMATION` does change the confidence — `force_confirmed` lifts
it to 0.80 even though the delta itself is zeroed. -/
theorem suppressed_affirmation_raises_confidence :
    calculate_confidence (3/10) [.USER_AFFIRMATION] .SUPPRESSED (fun _ => 0) = 80/100 ∧
    (80/100 : ℚ) ≠ 3/10 :=
  ⟨rfl, by norm_num⟩

/-- C2 (amended): for a suppressed entry every signal delta is zeroed, so
`calculate_confidence` returns the confidence unchanged for any batch
whose `USER_AFFIRMATION` occurrences (if any) were already applied once;
the single exception is a not-yet-applied `USER_AFFIRMATION`, whose
`force_confirmed` floor still lifts the confidence to
max(confidence, 0.80). -/
theorem suppressed_state_zeroes_deltas (c : ℚ) (hc0 : 0 ≤ c) (hc1 : c ≤ 1)
    (signals : List UpdateSignal) (hist : UpdateSignal → ℚ) :
    ((.USER_AFFIRMATION ∈ signals → 0 < hist .USER_AFFIRMATION) →
        calculate_confidence c signals .SUPPRESSED hist = c) ∧
    (.USER_AFFIRMATION ∈ signals → hist .USER_AFFIRMATION ≤ 0 →
        calculate_confidence c signals .SUPPRESSED hist = max c (80/100)) := by
  simp only [calculate_confidence]
  rw [foldl_applySignal_suppressed]
  constructor
  · intro hno
    rw [if_neg (by
      rintro ⟨hmem, hskip⟩
      rw [skipSignal_user_affirmation] at hskip
      exact absurd (hno hmem) (by simpa using hskip))]
    exact clamp01_of_mem c hc0 hc1
  · intro hmem hle
    rw [if_pos ⟨hmem, by rw [skipSignal_user_affirmation]; simpa using not_lt.mpr hle⟩]
    rw [show EPISTEMIC_THRESHOLDS .CONFIRMED = 80/100 from rfl]
    exact clamp01_of_mem _ (le_trans hc0 (le_max_left _ _))
      (max_le hc1 (by norm_num))

/-- Witness for C2: a suppressed entry at confidence 0.3 is unchanged by
a conflict/repeated-occurrence batch, while a fresh `USER_AFFIRMATION`
lifts it to max(0.3, 0.8). -/
theorem suppressed_state_zeroes_deltas_witness :
    calculate_confidence (3/10) [.CONFLICT_DETECTED, .REPEATED_OCCURRENCE]
        .SUPPRESSED (fun _ => 0) = 3/10 ∧
    calculate_confidence (3/10) [.USER_AFFIRMATION] .SUPPRESSED (fun _ => 0)
        = max (3/10) (80/100) := by
  constructor
  · exact (suppressed_state_zeroes_deltas (3/10) (by norm_num) (by norm_num)
      [.CONFLICT_DETECTED, .REPEATED_OCCURRENCE] (fun _ => 0)).1
      (fun h => absurd h (by decide))
  · exact (suppressed_state_zeroes_deltas (3/10) (by norm_num) (by norm_num)
      [.USER_AFFIRMATION] (fun _ => 0)).2 (by decide) (by norm_num)

/-- C5: for every confidence in [0, 1], the derived epistemic status is
the pure three-valued step function with breakpoints at exactly 0.45 and
0.80, and takes no other values. -/
theorem epistemic_status_is_step_function (c : ℚ) (hc0 : 0 ≤ c) (hc1 : c ≤ 1) :
    (get_epistemic_status c = .CONFIRMED ↔ 80/100 ≤ c) ∧
    (get_epistemic_status c = .PROVISIONAL ↔ 45/100 ≤ c ∧ c < 80/100) ∧
    (get_epistemic_status c = .HYPOTHESIS ↔ c < 45/100) ∧
    (get_epistemic_status c = .HYPOTHESIS ∨ get_epistemic_status c = .PROVISIONAL ∨
      get_epistemic_status c = .CONFIRMED) := by
  unfold get_epistemic_status EPISTEMIC_THRESHOLDS
  split_ifs with h1 h2
  · exact ⟨⟨fun _ => h1, fun _ => rfl⟩,
      ⟨fun h => (nomatch h), fun h => absurd h.2 (not_lt.mpr h1)⟩,
      ⟨fun h => (nomatch h),
       fun h => absurd h (not_lt.mpr (le_trans (by norm_num) h1))⟩,
      Or.inr (Or.inr rfl)⟩
  · exact ⟨⟨fun h => (nomatch h), fun h => absurd h h1⟩,
      ⟨fun _ => ⟨h2, not_le.mp h1⟩, fun _ => rfl⟩,
      ⟨fun h => (nomatch h), fun h => absurd h (not_lt.mpr h2)⟩,
      Or.inr (Or.inl rfl)⟩
  · exact ⟨⟨fun h => (nomatch h), fun h => absurd h h1⟩,
      ⟨fun h => (nomatch h), fun h => absurd h.1 h2⟩,
      ⟨fun _ => not_le.mp h2, fun _ => rfl⟩,
      Or.inl rfl⟩

/-- Witness for C5 at confidence 0.5. -/
theorem epistemic_status_is_step_function_witness :
    (0 : ℚ) ≤ 1/2 ∧ (1/2 : ℚ) ≤ 1 ∧ get_epistemic_status (1/2) = .PROVISIONAL :=
  ⟨by norm_num, by norm_num,
   (epistemic_status_is_step_function (1/2) (by norm_num) (by norm_num)).2.1.mpr
     (by norm_num)⟩

/-- The effective caps of the three throttled signals. -/
theorem effectiveCap_values :
    effectiveCap .REPEATED_OCCURRENCE = some 3 ∧
    effectiveCap .CONSISTENT_RECALL = some 3 ∧
    effectiveCap .USER_AFFIRMATION = some 1 :=
  ⟨rfl, rfl, rfl⟩

/-- For a signal with an effective cap, the skip guard fires exactly when
the recorded (natural-number) application count has reached the cap. -/
theorem skipSignal_iff_cap (s : UpdateSignal) (cap : ℕ)
    (hcap : effectiveCap s = some cap) (h : ℕ) :
    skipSignal (SIGNAL_MODIFIERS s) ((h : ℚ)) = decide (cap ≤ h) := by
  cases s
  · obtain rfl : (3 : ℕ) = cap := Option.some.inj hcap
    simp only [skipSignal, SIGNAL_MODIFIERS, Bool.false_and, Bool.or_false, ge_iff_le]
    rw [decide_eq_decide]
    exact_mod_cast Iff.rfl
  · obtain rfl : (3 : ℕ) = cap := Option.some.inj hcap
    simp only [skipSignal, SIGNAL_MODIFIERS, Bool.false_and, Bool.or_false, ge_iff_le]
    rw [decide_eq_decide]
    exact_mod_cast Iff.rfl
  · obtain rfl : (1 : ℕ) = cap := Option.some.inj hcap
    simp only [skipSignal, SIGNAL_MODIFIERS, Bool.true_and, Bool.false_or, gt_iff_lt]
    rw [decide_eq_decide, Nat.cast_pos]
    omega
  all_goals exact Option.noConfusion hcap

/-- Once the recorded count has reached the cap, no later batch applies
the signal again. -/
theorem totalApplied_eq_zero (s : UpdateSignal) (cap : ℕ)
    (hcap : effectiveCap s = some cap) (batches : List (List UpdateSignal)) :
    ∀ h0 : UpdateSignal → ℕ, cap ≤ h0 s → totalApplied h0 batches s = 0 := by
  induction batches with
  | nil => intro h0 _; rfl
  | cons b rest ih =>
    intro h0 hge
    unfold totalApplied appliedInBatch
    rw [skipSignal_iff_cap s cap hcap, if_pos (by simpa using hge)]
    rw [Nat.zero_add]
    exact ih _ (le_trans hge (Nat.le_add_right _ _))

/-- Cap bound on the applied occurrences, relative to the recorded
count. -/
theorem totalApplied_le_cap_sub (s : UpdateSignal) (cap : ℕ)
    (hcap : effectiveCap s = some cap) (batches : List (List UpdateSignal)) :
    ∀ h0 : UpdateSignal → ℕ, (∀ b ∈ batches, b.count s ≤ 1) → h0 s ≤ cap →
      totalApplied h0 batches s ≤ cap - h0 s := by
  induction batches with
  | nil => intro h0 _ _; exact Nat.zero_le _
  | cons b rest ih =>
    intro h0 hone hle
    have hcount : b.count s ≤ 1 := hone b (List.mem_cons_self _ _)
    have hone' : ∀ b' ∈ rest, b'.count s ≤ 1 :=
      fun b' hb' => hone b' (List.mem_cons_of_mem _ hb')
    unfold totalApplied appliedInBatch
    rw [skipSignal_iff_cap s cap hcap]
    by_cases hge : cap ≤ h0 s
    · rw [if_pos (by simpa using hge)]
      have hz : totalApplied (fun t => h0 t + b.count t) rest s = 0 :=
        totalApplied_eq_zero s cap hcap rest (fun t => h0 t + b.count t)
          (le_trans hge (Nat.le_add_right _ _))
      omega
    · rw [if_neg (by simpa using hge)]
      have hrec : totalApplied (fun t => h0 t + b.count t) rest s
          ≤ cap - (h0 s + b.count s) :=
        ih (fun t => h0 t + b.count t) hone'
          (by show h0 s + b.count s ≤ cap; omega)
      omega

/-- `dictGet_dictSet` restated through the `jget`/`jset` JSON
abbreviations. -/
theorem jget_jset (m : JObj) (k k' : String) (v : JValue) :
    jget (jset m k v) k' = if k = k' then some v else jget m k' :=
  dictGet_dictSet m k k' v

/-- A conditional assignment to a different key does not change a
lookup. -/
theorem jget_ite_jset_ne (C : Prop) [Decidable C] (x : JObj) (k k' : String)
    (v : JValue) (hkk : k ≠ k') :
    jget (if C then jset x k v else x) k' = jget x k' := by
  split
  · rw [jget_jset, if_neg hkk]
  · rfl

/-- The enum string values are distinct, so bumping one signal's counter
does not touch another's. -/
theorem UpdateSignal.key_injective (s t : UpdateSignal) (h : s.key = t.key) :
    s = t := by
  cases s <;> cases t <;> first | rfl | simp [UpdateSignal.key] at h

/-- `bumpHistory` unfolded one signal at a time. -/
theorem bumpHistory_cons (h : JObj) (t : UpdateSignal) (rest : List UpdateSignal) :
    bumpHistory h (t :: rest) =
      bumpHistory (jset h t.key (.num (((jget h t.key).getD (.num 0)).toNum + 1)))
        rest :=
  rfl

/-- The history-update loop of `update_entry` adds exactly the number of
occurrences of each signal in the batch to its counter. -/
theorem histCount_bumpHistory (s : UpdateSignal) (sigs : List UpdateSignal) :
    ∀ h : JObj, histCount (bumpHistory h sigs) s = histCount h s + sigs.count s := by
  induction sigs with
  | nil => intro h; simp [bumpHistory, histCount]
  | cons t rest ih =>
    intro h
    rw [bumpHistory_cons, ih]
    by_cases hts : t = s
    · subst hts
      rw [show histCount
            (jset h t.key (.num (((jget h t.key).getD (.num 0)).toNum + 1))) t
          = histCount h t + 1 by
        unfold histCount
        rw [jget_jset, if_pos rfl]
        rfl]
      rw [List.count_cons_self]
      push_cast
      ring
    · rw [show histCount
            (jset h t.key (.num (((jget h t.key).getD (.num 0)).toNum + 1))) s
          = histCount h s by
        unfold histCount
        rw [jget_jset,
          if_neg (fun hk => hts (UpdateSignal.key_injective t s hk))]]
      rw [List.count_cons_of_ne (fun hst => hts hst.symm)]

/-- The `signal_history` field of the entry returned by
`update_entry_core` is the bumped history. -/
theorem signal_history_of_update_entry_core (entry : JObj)
    (signals : List UpdateSignal) (conf : ℚ) (rs : ResolutionState) (hist : JObj) :
    signal_history_of (update_entry_core entry signals conf rs hist)
      = bumpHistory hist signals := by
  simp only [update_entry_core, signal_history_of]
  rw [jget_ite_jset_ne _ _ _ _ _ (by decide), jget_jset, if_pos rfl]

/-- A successful `update_entry` call bumps each signal's recorded count
by its number of occurrences in the batch. -/
theorem update_entry_bumps_history (entry : JObj) (signals : List UpdateSignal)
    (e' : JObj) (s : UpdateSignal) (h : update_entry entry signals = some e') :
    histCount (signal_history_of e') s
      = histCount (signal_history_of entry) s + signals.count s := by
  simp only [update_entry] at h
  split at h
  · rename_i conf rs hist hconf hrs hhist
    rw [← Option.some.inj h, signal_history_of_update_entry_core,
      histCount_bumpHistory]
    have : signal_history_of entry = hist := by
      cases hsh : jget entry "signal_history" with
      | none =>
        rw [hsh] at hhist
        unfold signal_history_of
        rw [hsh]
        exact Option.some.inj hhist
      | some v =>
        rw [hsh] at hhist
        unfold signal_history_of
        rw [hsh]
        cases v
        case obj fs => exact Option.some.inj hhist
        all_goals exact Option.noConfusion hhist
    rw [this]
  · exact Option.noConfusion h

/-- C3 (counterexample): one `update_entry` batch holding
`REPEATED_OCCURRENCE` five times applies its delta five times on a fresh
entry — confidence becomes 0.3 + 5·(0.05·0.5) = 0.425, strictly above the
0.3 + 3·(0.05·0.5) = 0.375 that a cap of three applications allows. -/
theorem repeated_occurrence_exceeds_cap_within_one_batch :
    (update_entry (create_initial_entry "user_likes_x" "the user likes x" .MEDIUM)
        [.REPEATED_OCCURRENCE, .REPEATED_OCCURRENCE, .REPEATED_OCCURRENCE,
         .REPEATED_OCCURRENCE, .REPEATED_OCCURRENCE]).map
        (fun e => jget e "confidence")
      = some (some (.num (17/40))) ∧
    (3/10 + 3 * (5/100 * (1/2)) : ℚ) < 17/40 :=
  ⟨rfl, by norm_num⟩

/-- C3 (amended): a signal whose recorded count has reached its cap
contributes no delta; when every `update_entry` batch contains a capped
signal at most once, the signal is applied at most its cap many times
over the whole sequence (3 for REPEATED_OCCURRENCE and CONSISTENT_RECALL,
1 for USER_AFFIRMATION); and each `update_entry` call advances every
signal's recorded count by its number of occurrences in the batch — but
within one batch all occurrences see the same count, so duplicates in a
batch can exceed the cap (see the counterexample). -/
theorem capped_signal_applications_bounded :
    (effectiveCap .REPEATED_OCCURRENCE = some 3 ∧
     effectiveCap .CONSISTENT_RECALL = some 3 ∧
     effectiveCap .USER_AFFIRMATION = some 1) ∧
    (∀ (c : ℚ) (hist : UpdateSignal → ℚ) (st : ResolutionState) (s : UpdateSignal),
        0 ≤ c → c ≤ 1 → skipSignal (SIGNAL_MODIFIERS s) (hist s) = true →
        calculate_confidence c [s] st hist = c) ∧
    (∀ (s : UpdateSignal) (cap : ℕ), effectiveCap s = some cap →
        ∀ batches : List (List UpdateSignal), (∀ b ∈ batches, b.count s ≤ 1) →
        totalApplied (fun _ => 0) batches s ≤ cap) ∧
    (∀ (entry : JObj) (signals : List UpdateSignal) (e' : JObj) (s : UpdateSignal),
        update_entry entry signals = some e' →
        histCount (signal_history_of e') s
          = histCount (signal_history_of entry) s + signals.count s) := by
  refine ⟨effectiveCap_values, ?_, ?_, update_entry_bumps_history⟩
  · intro c hist st s hc0 hc1 hskip
    simp only [calculate_confidence, List.foldl_cons, List.foldl_nil, applySignal]
    rw [if_pos hskip]
    exact clamp01_of_mem c hc0 hc1
  · intro s cap hcap batches hone
    have := totalApplied_le_cap_sub s cap hcap batches (fun _ => 0) hone
      (Nat.zero_le _)
    simpa using this

/-- Witness for C3 (amended): a repeated-occurrence signal at the cap
contributes nothing; four single-occurrence batches apply it at most 3
times; and one `USER_AFFIRMATION` call bumps its counter from 0 to 1. -/
theorem capped_signal_applications_bounded_witness :
    calculate_confidence (3/10) [.REPEATED_OCCURRENCE] .UNRESOLVED (fun _ => 3)
        = 3/10 ∧
    totalApplied (fun _ => 0) [[.REPEATED_OCCURRENCE], [.REPEATED_OCCURRENCE],
        [.REPEATED_OCCURRENCE], [.REPEATED_OCCURRENCE]] .REPEATED_OCCURRENCE ≤ 3 ∧
    histCount (signal_history_of (update_entry_core
        (create_initial_entry "user_likes_x" "the user likes x" .MEDIUM)
        [.USER_AFFIRMATION] (3/10) .UNRESOLVED []))
        .USER_AFFIRMATION
      = histCount (signal_history_of
          (create_initial_entry "user_likes_x" "the user likes x" .MEDIUM))
          .USER_AFFIRMATION + 1 := by
  refine ⟨?_, ?_, ?_⟩
  · exact capped_signal_applications_bounded.2.1 (3/10) (fun _ => 3) .UNRESOLVED
      .REPEATED_OCCURRENCE (by norm_num) (by norm_num) (by rfl)
  · exact capped_signal_applications_bounded.2.2.1 .REPEATED_OCCURRENCE 3 rfl
      [[.REPEATED_OCCURRENCE], [.REPEATED_OCCURRENCE], [.REPEATED_OCCURRENCE],
       [.REPEATED_OCCURRENCE]] (by decide)
  · have h := capped_signal_applications_bounded.2.2.2
      (create_initial_entry "user_likes_x" "the user likes x" .MEDIUM)
      [.USER_AFFIRMATION]
      (update_entry_core (create_initial_entry "user_likes_x" "the user likes x"
        .MEDIUM) [.USER_AFFIRMATION] (3/10) .UNRESOLVED [])
      .USER_AFFIRMATION (by rfl)
    simpa using h

/-- C4: with an active session, `write_episode` raises the capacity error
exactly when the session's episode counter has already reached 30, and a
successful write increments the counter by one (so the 30th call, at
counter 29, succeeds, and the 31st, at counter 30, fails). -/
theorem write_episode_capacity_at_30 (mode : ValidationMode) (ctx : SessionCtx)
    (episode : JObj) (riLevel : String) (hactive : ctx.sessionActive = true) :
    (write_episode mode ctx episode riLevel = .error .capacity ↔
        30 ≤ ctx.episodeCount) ∧
    (∀ ctx', write_episode mode ctx episode riLevel = .ok ctx' →
        ctx'.episodeCount = ctx.episodeCount + 1) ∧
    (ctx.episodeCount < 30 → episodicValidateOk episode riLevel = true →
        write_episode mode ctx episode riLevel =
          .ok { ctx with episodeCount := ctx.episodeCount + 1 }) := by
  unfold write_episode
  simp only [hactive, Bool.not_true, Bool.false_eq_true, if_false]
  by_cases hcap : ctx.episodeCount ≥ 30
  · rw [if_pos hcap]
    refine ⟨⟨fun _ => hcap, fun _ => rfl⟩, ?_, ?_⟩
    · intro ctx' h
      exact absurd h (by simp)
    · intro hlt _
      exact absurd hcap (not_le.mpr hlt)
  · rw [if_neg hcap]
    refine ⟨⟨?_, ?_⟩, ?_, ?_⟩
    · intro h
      by_cases hv : mode ≠ .off ∧ ¬episodicValidateOk episode riLevel = true ∧
          mode = .strict
      · rw [if_pos hv] at h
        exact absurd h (by simp)
      · rw [if_neg hv] at h
        exact absurd h (by simp)
    · intro h
      exact absurd h hcap
    · intro ctx' h
      by_cases hv : mode ≠ .off ∧ ¬episodicValidateOk episode riLevel = true ∧
          mode = .strict
      · rw [if_pos hv] at h
        exact absurd h (by simp)
      · rw [if_neg hv] at h
        rw [← Except.ok.inj h]
    · intro _ hvalid
      rw [if_neg (by rintro ⟨_, hnv, _⟩; exact hnv hvalid)]

/-- Witness for C4: with a valid L3 episode, the 30th write (counter at
29) succeeds and moves the counter to 30; the next call (counter at 30)
fails with the capacity error. -/
theorem write_episode_capacity_at_30_witness :
    write_episode .strict ⟨true, 29⟩ fullEpisode "L3"
        = .ok { sessionActive := true, episodeCount := 30 } ∧
    write_episode .strict ⟨true, 30⟩ fullEpisode "L3" = .error .capacity := by
  constructor
  · exact (write_episode_capacity_at_30 .strict ⟨true, 29⟩ fullEpisode "L3" rfl).2.2
      (by norm_num) (by rfl)
  · exact (write_episode_capacity_at_30 .strict ⟨true, 30⟩ fullEpisode "L3" rfl).1.mpr
      (by norm_num)

/-- C8: every semantic entry persisted by `write_semantic` carries the
system-authoritative initial values — confidence 0.3, status
"hypothesis", resolution state "unresolved", zero clarification
attempts — whatever the caller passed; such an entry fails
`validate_for_consolidation` (0.3 ≤ 0.7) and therefore never enters
Origin through the semantic merge unless it was already there. -/
theorem write_semantic_entry_initial_fields (concept definition episodeId : String)
    (turnIds : List String) (conflictsWith : Option String)
    (stakesLevel : StakesLevel) (createdAt lastUpdated semanticId : String) :
    jget (write_semantic_entry concept definition episodeId turnIds conflictsWith
        stakesLevel createdAt lastUpdated semanticId) "confidence"
      = some (.num (3/10)) ∧
    jget (write_semantic_entry concept definition episodeId turnIds conflictsWith
        stakesLevel createdAt lastUpdated semanticId) "epistemic_status"
      = some (.str "hypothesis") ∧
    jget (write_semantic_entry concept definition episodeId turnIds conflictsWith
        stakesLevel createdAt lastUpdated semanticId) "resolution_state"
      = some (.str "unresolved") ∧
    jget (write_semantic_entry concept definition episodeId turnIds conflictsWith
        stakesLevel createdAt lastUpdated semanticId) "clarification_attempts"
      = some (.num 0) ∧
    validate_for_consolidation (write_semantic_entry concept definition episodeId
        turnIds conflictsWith stakesLevel createdAt lastUpdated semanticId) = false ∧
    (∀ master buffer,
        write_semantic_entry concept definition episodeId turnIds conflictsWith
          stakesLevel createdAt lastUpdated semanticId ∉ master →
        write_semantic_entry concept definition episodeId turnIds conflictsWith
          stakesLevel createdAt lastUpdated semanticId ∉
            merge_semantic master buffer) := by
  have hstatus : get_epistemic_status (3/10) = .HYPOTHESIS := rfl
  have hfields : ∀ k₀, jget (write_semantic_entry concept definition episodeId
      turnIds conflictsWith stakesLevel createdAt lastUpdated semanticId) k₀
      = jget (create_initial_entry concept definition stakesLevel) k₀ ∨
      (k₀ = "concept" ∨ k₀ = "definition" ∨ k₀ = "derived_from" ∨
       k₀ = "conflicts_with" ∨ k₀ = "created_at" ∨ k₀ = "last_updated" ∨
       k₀ = "semantic_id") := by
    intro k₀
    unfold write_semantic_entry proposalData
    cases conflictsWith <;> by_cases hti : turnIds.isEmpty <;>
      simp only [hti, if_pos, if_neg, List.foldl_cons, List.foldl_nil,
        List.append_nil, List.cons_append, List.nil_append, jget, jset,
        dictGet_dictSet] <;>
      by_cases h1 : "concept" = k₀ <;> by_cases h2 : "definition" = k₀ <;>
      by_cases h3 : "derived_from" = k₀ <;> by_cases h4 : "conflicts_with" = k₀ <;>
      by_cases h5 : "created_at" = k₀ <;> by_cases h6 : "last_updated" = k₀ <;>
      by_cases h7 : "semantic_id" = k₀ <;>
      simp_all
  have hconf : jget (write_semantic_entry concept definition episodeId turnIds
      conflictsWith stakesLevel createdAt lastUpdated semanticId) "confidence"
      = some (.num (3/10)) := by
    rcases hfields "confidence" with h | h
    · rw [h]; rfl
    · simp at h
  have hst : jget (write_semantic_entry concept definition episodeId turnIds
      conflictsWith stakesLevel createdAt lastUpdated semanticId) "epistemic_status"
      = some (.str "hypothesis") := by
    rcases hfields "epistemic_status" with h | h
    · rw [h]; rfl
    · simp at h
  have hres : jget (write_semantic_entry concept definition episodeId turnIds
      conflictsWith stakesLevel createdAt lastUpdated semanticId) "resolution_state"
      = some (.str "unresolved") := by
    rcases hfields "resolution_state" with h | h
    · rw [h]; rfl
    · simp at h
  have hcla : jget (write_semantic_entry concept definition episodeId turnIds
      conflictsWith stakesLevel createdAt lastUpdated semanticId)
      "clarification_attempts" = some (.num 0) := by
    rcases hfields "clarification_attempts" with h | h
    · rw [h]; rfl
    · simp at h
  have hval : validate_for_consolidation (write_semantic_entry concept definition
      episodeId turnIds conflictsWith stakesLevel createdAt lastUpdated semanticId)
      = false := by
    unfold validate_for_consolidation entryConfidence
    rw [show jget (write_semantic_entry concept definition episodeId turnIds
          conflictsWith stakesLevel createdAt lastUpdated semanticId) "confidence"
        = some (.num (3/10)) from hconf]
    rw [if_pos (by norm_num [JValue.toNum])]
  refine ⟨hconf, hst, hres, hcla, hval, ?_⟩
  intro master buffer hnm hmem
  rcases mem_merge_semantic master buffer _ hmem with h | h
  · exact hnm h
  · rw [hval] at h
    exact Bool.false_ne_true h

/-- Witness for C8: a concrete freshly written entry is not admitted into
an Origin that does not already contain it. -/
theorem write_semantic_entry_initial_fields_witness :
    write_semantic_entry "user_likes_tea" "the user likes tea" "ep_S01_001_abc123"
        [] none .MEDIUM "2025-01-01T00:00:00Z" "2025-01-01T00:00:00Z"
        "sem_S01_deadbeef" ∉
      merge_semantic []
        [write_semantic_entry "user_likes_tea" "the user likes tea"
          "ep_S01_001_abc123" [] none .MEDIUM "2025-01-01T00:00:00Z"
          "2025-01-01T00:00:00Z" "sem_S01_deadbeef"] :=
  (write_semantic_entry_initial_fields "user_likes_tea" "the user likes tea"
      "ep_S01_001_abc123" [] none .MEDIUM "2025-01-01T00:00:00Z"
      "2025-01-01T00:00:00Z" "sem_S01_deadbeef").2.2.2.2.2 []
    _ (List.not_mem_nil _)

/-- C6: the code accepts the complete absence of `indexed_state` at RI
level L3 — `_phase3_state` never receives the RI level and adds only an
info line — so an otherwise valid L3 episode whose `emotive_snapshot`
has no `indexed_state` validates with no error, contradicting the claim
that only L1/L2 may omit it. -/
theorem episodic_l3_accepts_missing_indexed_state :
    episodicValidateOk episodeNoIndexedState "L3" = true ∧
    epiPhase3Ok episodeNoIndexedState = true :=
  ⟨rfl, rfl⟩

/-- C9: the RI-level projection is idempotent — reapplying
`_apply_ri_filter` with the same `ri_level` (and any later timestamp)
leaves its output unchanged. -/
theorem apply_ri_filter_idempotent (now later : String) (episode : JObj)
    (riLevel : String) :
    apply_ri_filter later (apply_ri_filter now episode riLevel) riLevel =
      apply_ri_filter now episode riLevel := by
  unfold apply_ri_filter
  by_cases h1 : riLevel = "L1"
  · simp [h1, dictGet]
  · by_cases h2 : riLevel = "L2"
    · simp [h1, h2, dictGet]
    · simp [h1, h2]

/-- C7 (counterexample to the stated error type): when the backup step
fails, the exception that escapes `consolidate_to_origin` is the
consolidation error produced by its catch-all handler, not the backup
error raised inside `_create_origin_backup`. -/
theorem backup_failure_raises_consolidation_error_not_backup_error :
    (consolidate_to_origin (fun _ => true) false originState1 (some buffersNonEmpty)).1
        = .error .consolidation ∧
    MSPErr.consolidation ≠ MSPErr.backup :=
  ⟨rfl, by decide⟩

/-- C7 (amended): a backup failure aborts `consolidate_to_origin` with a
consolidation error (wrapping the backup error) before any mutation: the
three Origin master stores, the version counter and the instance buffer
are all unchanged; only the timestamped backup directory has been
created. -/
theorem backup_failure_aborts_before_any_mutation (sv : JObj → Bool)
    (st : OriginState) (bufs : InstanceBuffers) :
    (consolidate_to_origin sv false st (some bufs)).1 = .error .consolidation ∧
    ((consolidate_to_origin sv false st (some bufs)).2.1).episodes = st.episodes ∧
    ((consolidate_to_origin sv false st (some bufs)).2.1).semanticEntries
        = st.semanticEntries ∧
    ((consolidate_to_origin sv false st (some bufs)).2.1).sensoryEntries
        = st.sensoryEntries ∧
    ((consolidate_to_origin sv false st (some bufs)).2.1).version = st.version ∧
    ((consolidate_to_origin sv false st (some bufs)).2.1).backupCount
        = st.backupCount + 1 ∧
    (consolidate_to_origin sv false st (some bufs)).2.2 = some bufs :=
  ⟨rfl, rfl, rfl, rfl, rfl, rfl, rfl⟩

/-- C10: `consolidate_to_origin` runs the backup step before checking for
buffer files, so with no buffer files present it returns the current
version, leaves Origin, the version counter and the buffers untouched —
but has already created a fresh backup directory; the operation is never
free of side effects. -/
theorem consolidate_without_buffers_still_creates_backup (sv : JObj → Bool)
    (st : OriginState) :
    consolidate_to_origin sv true st (some buffersNone) =
      (.ok st.version, { st with backupCount := st.backupCount + 1 },
       some buffersNone) :=
  rfl

end

end MSP
